import Mathlib

/-!
Verification development for the DeepTrack feature engine
(`DeepTrack/features.py`): the Feature node abstraction, its
PropertyBag resolution contract, the `+` / `*` / `**` combinators
(FeatureBranch, FeatureProbability, FeatureDuplicate), the
update/resolve lifecycle and the Load source leaf.

Shallow embedding conventions:
* `DeepTrack/properties.py` and `DeepTrack/Image.py` are collaborators
  that are not part of the analysed source; their behaviour is modelled
  from the specification (marked `Modelled from the spec:` below).
* Python's global `np.random` stream is made explicit as a function
  `g : Nat → ℚ` of draw indices, together with a cursor `pos : Nat`
  threaded through every resampling operation.
* Property samplers are zero-argument closures in the source; here they
  are defunctionalised into the finitely many shapes the source uses
  (`Sampler`), each applied to an explicit view of the partially
  updated bag and the random stream.
-/

namespace DT

/-- The concrete Feature subclasses of `features.py` (plus `addValue`,
a minimal concrete leaf used by the specification's scenarios). -/
inductive FKind : Type where
  | branch
  | probability
  | duplicate
  | load
  | addValue
deriving DecidableEq

mutual

/-- A property value: Python ints, floats, a Feature object, or a list
of Feature objects (the shapes stored in property slots by the source). -/
inductive Val : Type where
  | i : Int → Val
  | q : ℚ → Val
  | f : Feature → Val
  | fl : List Feature → Val

/-- Defunctionalised sampler closures occurring in the source:
`np.random.rand` (FeatureProbability.__init__), an integer distribution
built over a uniform draw (a user-supplied `num_duplicates` sampler),
the replica-building lambda of `FeatureDuplicate.__init__` (which
captures the template feature), and the Load generator (modelled from
the spec as an infinite stream with a cursor). -/
inductive Sampler : Type where
  | randUniform : Sampler
  | intOfDraw : (ℚ → Int) → Sampler
  | dupFeatures : Feature → Sampler
  | loadNext : (Nat → ℚ) → Nat → Sampler

/-- Modelled from the spec: `Property` of `DeepTrack/properties.py` is a
named value slot holding a current value and an optional sampler
(absent ⇒ constant). -/
inductive PropertyS : Type where
  | mk : Val → Option Sampler → PropertyS

/-- A Feature object: its class tag, its ordered PropertyDict (list of
name/Property pairs, insertion order significant), and the
`has_updated_since_last_resolve` flag (false at construction). -/
inductive Feature : Type where
  | mk : FKind → List (String × PropertyS) → Bool → Feature

end

/-- Current value of a property slot. -/
def PropertyS.current_value : PropertyS → Val
  | .mk v _ => v

/-- Sampler of a property slot (`none` means constant). -/
def PropertyS.sampler : PropertyS → Option Sampler
  | .mk _ s => s

/-- Class tag of a feature. -/
def Feature.kind : Feature → FKind
  | .mk k _ _ => k

/-- The ordered PropertyDict of a feature. -/
def Feature.bag : Feature → List (String × PropertyS)
  | .mk _ b _ => b

/-- The `has_updated_since_last_resolve` flag. -/
def Feature.flag : Feature → Bool
  | .mk _ _ fl => fl

/-- Name lookup in a PropertyDict state (first match wins). -/
def lookupVal : List (String × PropertyS) → String → Option Val
  | [], _ => none
  | (k, p) :: rest, n => if k = n then some p.current_value else lookupVal rest n

/-- Modelled from the spec: `PropertyDict.current_value_dict()` returns
the ordered mapping of names to current values (the resolved-property
snapshot). -/
def current_value_dict (bag : List (String × PropertyS)) : List (String × Val) :=
  bag.map (fun kp => (kp.1, kp.2.current_value))

/-- Modelled from the spec: the artifact (`DeepTrack/Image.py`) is a
scalar value carrying a provenance trail of per-node resolved-property
snapshots. -/
structure Image : Type where
  value : ℚ
  props : List (List (String × Val))

/-- Modelled from the spec: `Image.append` adds one metadata record to
the end of the provenance trail. -/
def Image.appendMeta (img : Image) (record : List (String × Val)) : Image :=
  ⟨img.value, img.props ++ [record]⟩

/-- The global uniform random stream (`np.random`), indexed by draw count. -/
abbrev RStream := Nat → ℚ

/-- Numeric coercion of a property value used when adding it to a scalar
artifact. -/
def valToQ : Val → ℚ
  | .i n => (n : ℚ)
  | .q r => r
  | _ => 0

/-- `copy.deepcopy` on a feature: in this pure value model a deep copy
is the value itself — copies share no state with the original by
construction. -/
def deepcopy (f : Feature) : Feature := f

mutual

/-- `Feature.update` (features.py): if `has_updated_since_last_resolve`
is false, update the PropertyDict; then set the flag and return self.
The random stream cursor is threaded explicitly. -/
def Feature.update (f : Feature) (g : RStream) (pos : Nat) : Feature × Nat :=
  match f with
  | .mk kind bag flag =>
    if flag then (Feature.mk kind bag true, pos)
    else
      let r := dictUpdate g [] bag pos
      (Feature.mk kind r.1 true, r.2)
termination_by (sizeOf f, 0)


/-- Modelled from the spec: `PropertyDict.update` of
`DeepTrack/properties.py` resamples entries strictly in insertion
order; a sampler invoked for entry k sees the dict state in which
entries j < k are already updated (`done`) and later entries still hold
their old values; node-valued constant entries are recursively updated
(the spec's propagation to sub-nodes stored as property values). -/
def dictUpdate (g : RStream) (done todo : List (String × PropertyS)) (pos : Nat) :
    List (String × PropertyS) × Nat :=
  match todo with
  | [] => (done, pos)
  | (k, p) :: rest =>
    let r := propStep g (fun n => lookupVal (done ++ (k, p) :: rest) n) p pos
    dictUpdate g (done ++ [(k, r.1)]) rest r.2
termination_by (sizeOf todo, 0)


/-- One entry of the resample pass: run the sampler if present,
otherwise recursively update node-valued constants, otherwise leave the
constant untouched. -/
def propStep (g : RStream) (see : String → Option Val) (p : PropertyS) (pos : Nat) :
    PropertyS × Nat :=
  match p with
  | .mk v s =>
    match s with
    | some smp => samplerRun g see smp pos
    | none =>
      match v with
      | .f ft =>
        let r := Feature.update ft g pos
        (PropertyS.mk (.f r.1) none, r.2)
      | .fl fs =>
        let r := featListUpdate fs g pos
        (PropertyS.mk (.fl r.1) none, r.2)
      | _ => (PropertyS.mk v none, pos)
termination_by (sizeOf p, 0)


/-- Semantics of each defunctionalised sampler. `dupFeatures` is the
lambda of `FeatureDuplicate.__init__`: it reads the current value of
`num_duplicates` through the bag (`see`) and builds that many updated
deep copies of the template. `loadNext` models the Load generator:
yield the item at the cursor and advance the cursor (it does not
consume the uniform stream). -/
def samplerRun (g : RStream) (see : String → Option Val) (s : Sampler) (pos : Nat) :
    PropertyS × Nat :=
  match s with
  | .randUniform => (PropertyS.mk (.q (g pos)) (some .randUniform), pos + 1)
  | .intOfDraw h => (PropertyS.mk (.i (h (g pos))) (some (.intOfDraw h)), pos + 1)
  | .dupFeatures t =>
    let n : Nat :=
      match see "num_duplicates" with
      | some (.i m) => m.toNat
      | _ => 0
    let r := mkReplicas g t n pos
    (PropertyS.mk (.fl r.1) (some (.dupFeatures t)), r.2)
  | .loadNext data c => (PropertyS.mk (.q (data c)) (some (.loadNext data (c + 1))), pos)
termination_by (sizeOf s, 1)


/-- The list comprehension
`[copy.deepcopy(feature).update() for _ in range(n)]`: each replica is
a deep copy of the template with `update()` invoked exactly once,
consuming fresh draws from the shared global stream. -/
def mkReplicas (g : RStream) (t : Feature) (n : Nat) (pos : Nat) : List Feature × Nat :=
  match n with
  | 0 => ([], pos)
  | m + 1 =>
    let r := Feature.update (deepcopy t) g pos
    let rest := mkReplicas g t m r.2
    (r.1 :: rest.1, rest.2)
termination_by (sizeOf t, n)


/-- Recursive update of a list of feature values held by one property. -/
def featListUpdate (fs : List Feature) (g : RStream) (pos : Nat) : List Feature × Nat :=
  match fs with
  | [] => ([], pos)
  | ft :: rest =>
    let r := Feature.update ft g pos
    let r2 := featListUpdate rest g r.2
    (r.1 :: r2.1, r2.2)
termination_by (sizeOf fs, 0)


end

mutual

/-- `Feature.resolve` (features.py): take the resolved-property
snapshot, run `get` on the input artifact with it, append the snapshot
to the artifact's provenance trail, clear
`has_updated_since_last_resolve` back to false, and return the
artifact.  In the source `get` mutates sub-features through aliasing;
here the updated bag is returned alongside the artifact. -/
def Feature.resolve (f : Feature) (img : Image) : Image × Feature :=
  match f with
  | .mk kind bag _ =>
    let props := current_value_dict bag
    let r := featGet kind bag img
    (Image.appendMeta r.1 props, Feature.mk kind r.2 false)
termination_by (sizeOf f, 0)

/-- The `get` methods of the concrete classes, dispatched on the class
tag.  Each receives the snapshot values (here read off the bag, whose
current values are exactly the snapshot) and returns the output
artifact plus the bag with sub-feature mutations written back:
* `FeatureBranch.get`: resolve `feature_1`, then `feature_2` on its output;
* `FeatureProbability.get`: resolve the wrapped feature iff `random_number < probability`;
* `FeatureDuplicate.get`: fold the artifact through the `features` list in order;
* `Load.get`: return `image + loaded_image`;
* `addValue.get` (spec-modelled concrete leaf): add the `value` property.
A bag not matching the class's constructor shape leaves the artifact
unchanged. -/
def featGet (kind : FKind) (bag : List (String × PropertyS)) (img : Image) :
    Image × List (String × PropertyS) :=
  match kind, bag with
  | .branch, [("feature_1", PropertyS.mk (.f f1) s1), ("feature_2", PropertyS.mk (.f f2) s2)] =>
    let r1 := Feature.resolve f1 img
    let r2 := Feature.resolve f2 r1.1
    (r2.1, [("feature_1", PropertyS.mk (.f r1.2) s1), ("feature_2", PropertyS.mk (.f r2.2) s2)])
  | .probability, [("feature", PropertyS.mk (.f ft) s1),
      ("probability", PropertyS.mk (.q p) s2),
      ("random_number", PropertyS.mk (.q rn) s3)] =>
    if rn < p then
      let r1 := Feature.resolve ft img
      (r1.1, [("feature", PropertyS.mk (.f r1.2) s1),
        ("probability", PropertyS.mk (.q p) s2),
        ("random_number", PropertyS.mk (.q rn) s3)])
    else
      (img, [("feature", PropertyS.mk (.f ft) s1),
        ("probability", PropertyS.mk (.q p) s2),
        ("random_number", PropertyS.mk (.q rn) s3)])
  | .duplicate, [(k1, p1), ("features", PropertyS.mk (.fl fs) s2)] =>
    let r := resolveList fs img
    (r.1, [(k1, p1), ("features", PropertyS.mk (.fl r.2) s2)])
  | .load, [("loaded_image", PropertyS.mk (.q li) s1)] =>
    (⟨img.value + li, img.props⟩, [("loaded_image", PropertyS.mk (.q li) s1)])
  | .addValue, [("value", PropertyS.mk v s1)] =>
    (⟨img.value + valToQ v, img.props⟩, [("value", PropertyS.mk v s1)])
  | _, b => (img, b)
termination_by (sizeOf bag, 1)

/-- `for feature in features: image = feature.resolve(image)`
(FeatureDuplicate.get): fold the artifact through the replica list in
list order, returning the mutated replicas as well. -/
def resolveList (fs : List Feature) (img : Image) : Image × List Feature :=
  match fs with
  | [] => (img, [])
  | ft :: rest =>
    let r1 := Feature.resolve ft img
    let r2 := resolveList rest r1.1
    (r2.1, r1.2 :: r2.2)
termination_by (sizeOf fs, 0)

end

/-- `Feature.__init__`: wrap the keyword arguments, in order, as
Properties; the dirty flag starts false
(`has_updated_since_last_resolve = False`). -/
def Feature.init (kind : FKind) (kwargs : List (String × PropertyS)) : Feature :=
  Feature.mk kind kwargs false

/-- `FeatureBranch.__init__`: `super().__init__(feature_1=F1, feature_2=F2)`. -/
def FeatureBranch (F1 F2 : Feature) : Feature :=
  Feature.init .branch
    [("feature_1", PropertyS.mk (.f F1) none), ("feature_2", PropertyS.mk (.f F2) none)]

/-- `FeatureProbability.__init__`: properties `feature`, `probability`,
`random_number=np.random.rand`, declared in that order. -/
def FeatureProbability (feature : Feature) (probability : ℚ) : Feature :=
  Feature.init .probability
    [("feature", PropertyS.mk (.f feature) none),
      ("probability", PropertyS.mk (.q probability) none),
      ("random_number", PropertyS.mk (.q 0) (some .randUniform))]

/-- `FeatureDuplicate.__init__`: property `num_duplicates` (constant or
user-sampled, passed through) declared first, then `features`, whose
sampler is the replica-building lambda capturing the template. -/
def FeatureDuplicate (feature : Feature) (num_duplicates : PropertyS) : Feature :=
  Feature.init .duplicate
    [("num_duplicates", num_duplicates),
      ("features", PropertyS.mk (.fl []) (some (.dupFeatures feature)))]

/-- `Load.__init__`, with the external file-backed generator modelled
from the spec as an infinite stream `data`: the constructor draws the
first item (`loaded_image=next(self)`), leaving the cursor at 1. -/
def Load (data : Nat → ℚ) : Feature :=
  Feature.init .load
    [("loaded_image", PropertyS.mk (.q (data 0)) (some (.loadNext data 1)))]

/-- Modelled from the spec: a minimal concrete Node variant (the
scenarios' "NodeA adds constant 1" style leaf); its `value` property
may be constant or sampled, and its get adds it to the scalar artifact. -/
def AddValue (v : PropertyS) : Feature :=
  Feature.init .addValue [("value", v)]

/-- `Feature.__mul__`: `F * other` builds `FeatureProbability(F, other)`. -/
def Feature.mul (self : Feature) (other : ℚ) : Feature :=
  FeatureProbability self other

/-- `Feature.__rmul__ = Feature.__mul__`: `other * F` reuses `__mul__`
with the same receiver. -/
def Feature.rmul (self : Feature) (other : ℚ) : Feature :=
  Feature.mul self other

/-- `Feature.__add__`: `F1 + F2` builds `FeatureBranch(F1, F2)`. -/
def Feature.addOp (self other : Feature) : Feature :=
  FeatureBranch self other

/-- `Feature.__pow__`: `F ** other` builds `FeatureDuplicate(F, other)`. -/
def Feature.powOp (self : Feature) (other : PropertyS) : Feature :=
  FeatureDuplicate self other

/-- `Load.setParent` raises unconditionally; as a fallible operation it
returns the error. -/
def Load.setParent (_self _F : Feature) : Except String Feature :=
  Except.error "The Load class cannot have a parent. For literal addition, use the Add class"

/-- `FeatureBranch.__init__` as a fallible constructor: the source
performs no wiring checks whatsoever (in particular it never calls
`setParent` on either child), so construction always succeeds. -/
def featureBranchInit (F1 F2 : Feature) : Except String Feature :=
  Except.ok (FeatureBranch F1 F2)

/-- One generation round of a node: the update phase followed by the
resolve phase, threading the node state and the artifact. -/
def genRound (g : RStream) (pos : Nat) (st : Feature × Image) : Feature × Image :=
  let u := Feature.update st.1 g pos
  let r := Feature.resolve u.1 st.2
  (r.2, r.1)

/-- Iterated generation rounds. -/
def genRounds (g : RStream) (pos : Nat) : Nat → (Feature × Image) → Feature × Image
  | 0, st => st
  | n + 1, st => genRound g pos (genRounds g pos n st)

/-- Sum of the stream items `d 1 + d 2 + ... + d n`. -/
def sumTo (d : Nat → ℚ) : Nat → ℚ
  | 0 => 0
  | n + 1 => sumTo d n + d (n + 1)

/-- An updated replica of the scenario template: an `addValue` node
whose sampled `value` property currently holds the draw `x`, with its
flag set by the one `update()` call. -/
def replicaAt (x : ℚ) : Feature :=
  Feature.mk .addValue [("value", PropertyS.mk (.q x) (some .randUniform))] true

theorem mkReplicas_length (g : RStream) (t : Feature) :
    ∀ n pos, ((mkReplicas g t n pos).1).length = n := by
  intro n
  induction n with
  | zero => intro pos; simp [mkReplicas]
  | succ m ih => intro pos; simp [mkReplicas, ih]

/-- C2: calling `update()` twice without an intervening `resolve()` is
the same as calling it once: the first call leaves the flag set
(`has_updated_since_last_resolve = true`), and a second call while the
flag is set returns the node and the random cursor untouched, so the
resolved property snapshot is unchanged (the dirty-flag gate makes
`update()` idempotent within one round regardless of call topology). -/
theorem update_twice_is_noop (f : Feature) (g : RStream) (pos : Nat) :
    (Feature.update f g pos).1.flag = true ∧
    Feature.update (Feature.update f g pos).1 g (Feature.update f g pos).2
      = Feature.update f g pos ∧
    current_value_dict
        (Feature.update (Feature.update f g pos).1 g (Feature.update f g pos).2).1.bag
      = current_value_dict (Feature.update f g pos).1.bag := by
  obtain ⟨kind, bag, flag⟩ := f
  cases flag <;> simp [Feature.update, Feature.flag]

/-- C3: `resolve(inputArtifact)` takes the current resolved-property
snapshot, obtains the output artifact from the class `get` with it,
appends the snapshot as a metadata record at the end of the artifact's
provenance trail, transitions the node back to Dirty
(`has_updated_since_last_resolve = false`), and returns the artifact;
it is legal without a prior `update()` in the round — it never
resamples, reads only the currently resolved values, and behaves
identically whatever the flag state. -/
theorem resolve_contract (kind : FKind) (bag : List (String × PropertyS))
    (flag : Bool) (img : Image) :
    (Feature.resolve (Feature.mk kind bag flag) img).2.flag = false ∧
    (Feature.resolve (Feature.mk kind bag flag) img).2.kind = kind ∧
    (Feature.resolve (Feature.mk kind bag flag) img).2.bag = (featGet kind bag img).2 ∧
    (Feature.resolve (Feature.mk kind bag flag) img).1.props
      = (featGet kind bag img).1.props ++ [current_value_dict bag] ∧
    (Feature.resolve (Feature.mk kind bag flag) img).1.value
      = (featGet kind bag img).1.value ∧
    Feature.resolve (Feature.mk kind bag true) img
      = Feature.resolve (Feature.mk kind bag false) img := by
  simp [Feature.resolve, Feature.flag, Feature.kind, Feature.bag, Image.appendMeta]

/-- C6: a Duplicate node whose count resolved to 0 stores an empty
replica list (`range(0)` builds no copies; updating the constructed
node with constant count 0 stores `[]`), and
`FeatureDuplicate.get` with an empty `features` list returns the input
artifact unchanged — value and provenance trail both — acting as the
identity transformation. -/
theorem duplicate_count_zero_identity (t : Feature) (g : RStream) (pos : Nat)
    (img : Image) (k1 : String) (p1 : PropertyS) (s2 : Option Sampler) :
    mkReplicas g t 0 pos = ([], pos) ∧
    lookupVal ((Feature.update (FeatureDuplicate t (PropertyS.mk (.i 0) none)) g pos).1.bag)
        "features" = some (.fl []) ∧
    featGet .duplicate [(k1, p1), ("features", PropertyS.mk (.fl []) s2)] img
      = (img, [(k1, p1), ("features", PropertyS.mk (.fl []) s2)]) := by
  refine ⟨by simp [mkReplicas], ?_, ?_⟩
  · simp [Feature.update, FeatureDuplicate, Feature.init, Feature.bag, dictUpdate,
      propStep, samplerRun, lookupVal, PropertyS.current_value, mkReplicas]
  · simp [featGet, resolveList]

/-- C10: `F * p` (`__mul__`) and `p * F` (`__rmul__ = __mul__`) build
the same node: a FeatureProbability wrapping `F` with threshold `p`
(properties `feature`, `probability`, `random_number` in that order,
flag clear) — the probabilistic-apply construction operator is
commutative in its operand order. -/
theorem mul_rmul_same_node (f : Feature) (p : ℚ) :
    Feature.mul f p = Feature.rmul f p ∧
    Feature.mul f p = FeatureProbability f p ∧
    Feature.mul f p = Feature.mk .probability
      [("feature", PropertyS.mk (.f f) none),
        ("probability", PropertyS.mk (.q p) none),
        ("random_number", PropertyS.mk (.q 0) (some .randUniform))] false := by
  simp [Feature.mul, Feature.rmul, FeatureProbability, Feature.init]

/-- C1: in a Duplicate node `num_duplicates` is declared before
`features` in the PropertyBag; the resample pass runs in insertion
order, so the replica-list sampler reads the `num_duplicates` value
resampled in the same pass, and after `update()` the stored `features`
list has length exactly the freshly resampled count — never the stale
value `v0` from before the round. -/
theorem duplicate_fresh_count (t : Feature) (v0 : Val) (h : ℚ → Int) (g : RStream)
    (pos : Nat) (hnn : 0 ≤ h (g pos)) :
    (FeatureDuplicate t (PropertyS.mk v0 (some (.intOfDraw h)))).bag.map Prod.fst
      = ["num_duplicates", "features"] ∧
    lookupVal
        ((Feature.update (FeatureDuplicate t (PropertyS.mk v0 (some (.intOfDraw h)))) g pos).1.bag)
        "num_duplicates" = some (.i (h (g pos))) ∧
    ∃ fs : List Feature,
      lookupVal
          ((Feature.update (FeatureDuplicate t (PropertyS.mk v0 (some (.intOfDraw h)))) g pos).1.bag)
          "features" = some (.fl fs) ∧
      (fs.length : Int) = h (g pos) := by
  refine ⟨by simp [FeatureDuplicate, Feature.init, Feature.bag], ?_, ?_⟩
  · simp [Feature.update, FeatureDuplicate, Feature.init, Feature.bag, dictUpdate,
      propStep, samplerRun, lookupVal, PropertyS.current_value]
  · refine ⟨(mkReplicas g t ((h (g pos)).toNat) (pos + 1)).1, ?_, ?_⟩
    · simp [Feature.update, FeatureDuplicate, Feature.init, Feature.bag, dictUpdate,
        propStep, samplerRun, lookupVal, PropertyS.current_value]
    · rw [mkReplicas_length]
      exact Int.toNat_of_nonneg hnn

/-- Concrete instance of C1: count sampler always drawing 2, a constant
template, stale value 5; after one update the list has length 2. -/
theorem duplicate_fresh_count_witness :
    0 ≤ (2 : Int) ∧
    ((FeatureDuplicate (AddValue (PropertyS.mk (.i 7) none))
        (PropertyS.mk (.i 5) (some (.intOfDraw (fun _ => 2))))).bag.map Prod.fst
      = ["num_duplicates", "features"] ∧
    lookupVal
        ((Feature.update (FeatureDuplicate (AddValue (PropertyS.mk (.i 7) none))
            (PropertyS.mk (.i 5) (some (.intOfDraw (fun _ => 2))))) (fun _ => 0) 0).1.bag)
        "num_duplicates" = some (.i 2) ∧
    ∃ fs : List Feature,
      lookupVal
          ((Feature.update (FeatureDuplicate (AddValue (PropertyS.mk (.i 7) none))
              (PropertyS.mk (.i 5) (some (.intOfDraw (fun _ => 2))))) (fun _ => 0) 0).1.bag)
          "features" = some (.fl fs) ∧
      (fs.length : Int) = 2) :=
  ⟨by norm_num,
    duplicate_fresh_count (AddValue (PropertyS.mk (.i 7) none)) (.i 5)
      (fun _ => 2) (fun _ => 0) 0 (by norm_num)⟩

/-- C7: each run of the replica sampler of a Duplicate node (count 3,
template with one sampled non-degenerate property) stores a fresh list
of three deep copies of the template, each with `update()` invoked
exactly once before the list is stored (each stored replica is
literally `update(deepcopy(template))` on its own segment of the random
stream, and carries the updated flag); whenever the three draws differ
the three replicas' resolved property snapshots are pairwise different
— replicas are not clones of a shared resample. -/
theorem duplicate_replicas_independent (qv : ℚ) (g : RStream) (pos : Nat)
    (h1 : g pos ≠ g (pos + 1)) (h2 : g pos ≠ g (pos + 2)) (h3 : g (pos + 1) ≠ g (pos + 2)) :
    lookupVal
        ((Feature.update (FeatureDuplicate (AddValue (PropertyS.mk (.q qv) (some .randUniform)))
            (PropertyS.mk (.i 3) none)) g pos).1.bag) "features"
      = some (.fl [replicaAt (g pos), replicaAt (g (pos + 1)), replicaAt (g (pos + 2))]) ∧
    (∀ p', Feature.update (deepcopy (AddValue (PropertyS.mk (.q qv) (some .randUniform)))) g p'
        = (replicaAt (g p'), p' + 1)) ∧
    (∀ x, (replicaAt x).flag = true) ∧
    current_value_dict (replicaAt (g pos)).bag
      ≠ current_value_dict (replicaAt (g (pos + 1))).bag ∧
    current_value_dict (replicaAt (g pos)).bag
      ≠ current_value_dict (replicaAt (g (pos + 2))).bag ∧
    current_value_dict (replicaAt (g (pos + 1))).bag
      ≠ current_value_dict (replicaAt (g (pos + 2))).bag := by
  refine ⟨?_, ?_, ?_, ?_, ?_, ?_⟩
  · simp [Feature.update, FeatureDuplicate, AddValue, Feature.init, Feature.bag, dictUpdate,
      propStep, samplerRun, lookupVal, PropertyS.current_value, mkReplicas, deepcopy, replicaAt]
  · intro p'
    simp [Feature.update, AddValue, Feature.init, deepcopy, dictUpdate, propStep,
      samplerRun, replicaAt]
  · intro x; simp [replicaAt, Feature.flag]
  · simpa [replicaAt, current_value_dict, Feature.bag, PropertyS.current_value] using h1
  · simpa [replicaAt, current_value_dict, Feature.bag, PropertyS.current_value] using h2
  · simpa [replicaAt, current_value_dict, Feature.bag, PropertyS.current_value] using h3

/-- Concrete instance of C7: the stream `n ↦ n` gives three distinct
draws 0, 1, 2, hence three pairwise different replica snapshots. -/
theorem duplicate_replicas_independent_witness :
    ((0 : ℚ) ≠ 1 ∧ (0 : ℚ) ≠ 2 ∧ (1 : ℚ) ≠ 2) ∧
    (lookupVal
        ((Feature.update (FeatureDuplicate (AddValue (PropertyS.mk (.q 9) (some .randUniform)))
            (PropertyS.mk (.i 3) none)) (fun n => (n : ℚ)) 0).1.bag) "features"
      = some (.fl [replicaAt 0, replicaAt 1, replicaAt 2]) ∧
    (∀ p', Feature.update (deepcopy (AddValue (PropertyS.mk (.q 9) (some .randUniform))))
        (fun n => (n : ℚ)) p' = (replicaAt ((p' : ℚ)), p' + 1)) ∧
    (∀ x, (replicaAt x).flag = true) ∧
    current_value_dict (replicaAt 0).bag ≠ current_value_dict (replicaAt 1).bag ∧
    current_value_dict (replicaAt 0).bag ≠ current_value_dict (replicaAt 2).bag ∧
    current_value_dict (replicaAt 1).bag ≠ current_value_dict (replicaAt 2).bag) :=
  ⟨⟨by norm_num, by norm_num, by norm_num⟩, by
    have := duplicate_replicas_independent 9 (fun n => (n : ℚ)) 0
      (by norm_num) (by norm_num) (by norm_num)
    simpa using this⟩

/-- C5: a ProbabilisticApply node's `get` returns the wrapped feature's
resolve of the input artifact iff the drawn value is strictly below the
threshold, and otherwise the input artifact unchanged; `update()`
stores a freshly drawn value from the uniform stream in
`random_number`, and as all draws lie in [0,1), threshold 0 never
applies the wrapped node in any round while threshold 1 always does. -/
theorem probability_threshold (ft : Feature) (p rn : ℚ) (s1 s2 s3 : Option Sampler)
    (img : Image) (g : RStream) (pos : Nat) (hg : ∀ i, 0 ≤ g i ∧ g i < 1) :
    (Feature.update (FeatureProbability ft p) g pos).1
      = Feature.mk .probability
          [("feature", PropertyS.mk (.f (Feature.update ft g pos).1) none),
            ("probability", PropertyS.mk (.q p) none),
            ("random_number",
              PropertyS.mk (.q (g (Feature.update ft g pos).2)) (some .randUniform))] true ∧
    (rn < p →
      featGet .probability
          [("feature", PropertyS.mk (.f ft) s1), ("probability", PropertyS.mk (.q p) s2),
            ("random_number", PropertyS.mk (.q rn) s3)] img
        = ((Feature.resolve ft img).1,
            [("feature", PropertyS.mk (.f (Feature.resolve ft img).2) s1),
              ("probability", PropertyS.mk (.q p) s2),
              ("random_number", PropertyS.mk (.q rn) s3)])) ∧
    (¬ rn < p →
      featGet .probability
          [("feature", PropertyS.mk (.f ft) s1), ("probability", PropertyS.mk (.q p) s2),
            ("random_number", PropertyS.mk (.q rn) s3)] img
        = (img,
            [("feature", PropertyS.mk (.f ft) s1), ("probability", PropertyS.mk (.q p) s2),
              ("random_number", PropertyS.mk (.q rn) s3)])) ∧
    (p = 0 →
      featGet .probability (Feature.update (FeatureProbability ft p) g pos).1.bag img
        = (img, (Feature.update (FeatureProbability ft p) g pos).1.bag)) ∧
    (p = 1 →
      featGet .probability (Feature.update (FeatureProbability ft p) g pos).1.bag img
        = ((Feature.resolve (Feature.update ft g pos).1 img).1,
            [("feature",
                PropertyS.mk (.f (Feature.resolve (Feature.update ft g pos).1 img).2) none),
              ("probability", PropertyS.mk (.q p) none),
              ("random_number",
                PropertyS.mk (.q (g (Feature.update ft g pos).2)) (some .randUniform))])) := by
  have hupd : (Feature.update (FeatureProbability ft p) g pos).1
      = Feature.mk .probability
          [("feature", PropertyS.mk (.f (Feature.update ft g pos).1) none),
            ("probability", PropertyS.mk (.q p) none),
            ("random_number",
              PropertyS.mk (.q (g (Feature.update ft g pos).2)) (some .randUniform))] true := by
    simp [Feature.update, FeatureProbability, Feature.init, dictUpdate, propStep, samplerRun]
  refine ⟨hupd, ?_, ?_, ?_, ?_⟩
  · intro hlt; simp [featGet, hlt]
  · intro hge; simp [featGet, hge]
  · intro hp0
    have h0 : ¬ g (Feature.update ft g pos).2 < p := by
      rw [hp0]; exact not_lt.mpr (hg _).1
    simp [hupd, Feature.bag, featGet, h0]
  · intro hp1
    have h1 : g (Feature.update ft g pos).2 < p := by
      rw [hp1]; exact (hg _).2
    simp [hupd, Feature.bag, featGet, h1]

/-- Concrete instance of C5: constant stream 1/2, threshold 1 — the
wrapped add-one node always applies. -/
theorem probability_threshold_witness :
    (∀ i : Nat, 0 ≤ (fun _ : Nat => (1 : ℚ) / 2) i ∧ (fun _ : Nat => (1 : ℚ) / 2) i < 1) ∧
    ((1 : ℚ) = 1 →
      featGet .probability
          (Feature.update (FeatureProbability (AddValue (PropertyS.mk (.i 1) none)) 1)
            (fun _ : Nat => (1 : ℚ) / 2) 0).1.bag ⟨5, []⟩
        = ((Feature.resolve
              (Feature.update (AddValue (PropertyS.mk (.i 1) none)) (fun _ : Nat => (1 : ℚ) / 2) 0).1
              ⟨5, []⟩).1,
            [("feature",
                PropertyS.mk
                  (.f (Feature.resolve
                    (Feature.update (AddValue (PropertyS.mk (.i 1) none))
                      (fun _ : Nat => (1 : ℚ) / 2) 0).1 ⟨5, []⟩).2) none),
              ("probability", PropertyS.mk (.q 1) none),
              ("random_number",
                PropertyS.mk
                  (.q ((fun _ : Nat => (1 : ℚ) / 2)
                    (Feature.update (AddValue (PropertyS.mk (.i 1) none))
                      (fun _ : Nat => (1 : ℚ) / 2) 0).2)) (some .randUniform))])) :=
  ⟨fun i => ⟨by norm_num, by norm_num⟩,
    (probability_threshold (AddValue (PropertyS.mk (.i 1) none)) 1 0 none none none
      ⟨5, []⟩ (fun _ : Nat => (1 : ℚ) / 2) 0
      (fun i => ⟨by norm_num, by norm_num⟩)).2.2.2.2⟩

/-- C9: every generation round of a Load leaf adds the next raw
artifact of the external stream to the input artifact: after n rounds
the node's generator cursor stands at n + 1, its `loaded_image`
property holds item n, and the artifact value is the input plus
`data 1 + ... + data n` — successive rounds consume successive items of
the stream, not one fixed value. -/
theorem load_consumes_stream (data : Nat → ℚ) (g : RStream) (pos : Nat) (img : Image) :
    ∀ n : Nat,
      (genRounds g pos n (Load data, img)).1
        = Feature.mk .load
            [("loaded_image", PropertyS.mk (.q (data n)) (some (.loadNext data (n + 1))))]
            false ∧
      ((genRounds g pos n (Load data, img)).2).value = img.value + sumTo data n := by
  intro n
  induction n with
  | zero =>
    constructor
    · simp [genRounds, Load, Feature.init]
    · simp [genRounds, sumTo]
  | succ m ih =>
    obtain ⟨ih1, ih2⟩ := ih
    constructor
    · simp [genRounds, genRound, ih1, Feature.update, dictUpdate, propStep, samplerRun,
        Feature.resolve, featGet, Image.appendMeta]
    · simp [genRounds, genRound, ih1, Feature.update, dictUpdate, propStep, samplerRun,
        Feature.resolve, featGet, Image.appendMeta, sumTo, ih2, add_assoc]

/-- C4 counterexample: resolving `Sequence(NodeA, NodeB)` (adding 1 and
2) on artifact 0 does not leave the metadata trail exactly
`[NodeA's snapshot, NodeB's snapshot]` — the sequence node's own
resolve appends its own snapshot as a third record. -/
theorem sequence_trail_counterexample :
    ¬ ((Feature.resolve
          (FeatureBranch (AddValue (PropertyS.mk (.i 1) none))
            (AddValue (PropertyS.mk (.i 2) none))) ⟨0, []⟩).1.props
        = [[("value", Val.i 1)], [("value", Val.i 2)]]) := by
  intro hcl
  have hlen := congrArg List.length hcl
  simp [Feature.resolve, featGet, FeatureBranch, AddValue, Feature.init,
    current_value_dict, Image.appendMeta] at hlen

/-- C4 amended: resolving the sequence on artifact 0 returns 3, NodeA
is applied strictly before NodeB (their snapshots appear in that order
in the trail), and the trail is exactly NodeA's snapshot, NodeB's
snapshot, then the Sequence node's own snapshot. -/
theorem sequence_scenario_amended :
    (Feature.resolve
        (FeatureBranch (AddValue (PropertyS.mk (.i 1) none))
          (AddValue (PropertyS.mk (.i 2) none))) ⟨0, []⟩).1.value = 3 ∧
    (Feature.resolve
        (FeatureBranch (AddValue (PropertyS.mk (.i 1) none))
          (AddValue (PropertyS.mk (.i 2) none))) ⟨0, []⟩).1.props
      = [[("value", Val.i 1)], [("value", Val.i 2)],
          [("feature_1", Val.f (AddValue (PropertyS.mk (.i 1) none))),
            ("feature_2", Val.f (AddValue (PropertyS.mk (.i 2) none)))]] := by
  constructor
  · simp [Feature.resolve, featGet, FeatureBranch, AddValue, Feature.init, valToQ,
      current_value_dict, Image.appendMeta, PropertyS.current_value]
    norm_num
  · simp [Feature.resolve, featGet, FeatureBranch, AddValue, Feature.init,
      current_value_dict, Image.appendMeta, PropertyS.current_value]

/-- C8 counterexample: building a Sequence with a Load leaf as its
second (downstream) child raises no construction-time error — the
constructor performs no wiring check and succeeds. -/
theorem load_child_no_construction_error :
    featureBranchInit (AddValue (PropertyS.mk (.i 1) none)) (Load (fun _ => 0))
      = Except.ok (FeatureBranch (AddValue (PropertyS.mk (.i 1) none)) (Load (fun _ => 0))) :=
  rfl

/-- C8 amended: `Load.setParent` raises ("The Load class cannot have a
parent...") whenever it is invoked, but no combinator constructor
invokes it: building a Sequence with a Load child — on either side —
succeeds with no error at tree-build time. -/
theorem setParent_raises_but_unwired (s f1 : Feature) (data : Nat → ℚ) :
    Load.setParent s f1
      = Except.error
          "The Load class cannot have a parent. For literal addition, use the Add class" ∧
    featureBranchInit f1 (Load data) = Except.ok (FeatureBranch f1 (Load data)) ∧
    featureBranchInit (Load data) f1 = Except.ok (FeatureBranch (Load data) f1) :=
  ⟨rfl, rfl, rfl⟩

end DT
